import Mathlib

/-!
Shallow embedding of the EventHub connection-config addressing helper
(eventHubConnectionConfig.ts, function EventHubConnectionConfig.create)
and proofs of the specified properties of its six derive operations.
-/

/-- Modelled from the spec: the underlying ConnectionConfig descriptor
(connectionConfig.ts is not among the sources). Per the spec, the
descriptor carries an `endpoint` (base network address of the namespace)
and an `entityPath` (hub name); the six derive operations read only these
two fields. -/
structure EventHubConnectionConfig where
  endpoint : String
  entityPath : String
deriving DecidableEq, Repr

/-- JavaScript runtime values that can be passed as the `partitionId`
argument: `undefined` (argument omitted), `null`, strings, numbers
(integer-valued, as used by the code and tests), booleans, plain objects
and arrays. -/
inductive JSValue where
  | undefined
  | null
  | str (s : String)
  | num (n : Int)
  | bool (b : Bool)
  | object
  | array
deriving DecidableEq, Repr

/-- JavaScript string conversion, as applied by template-literal
interpolation. Integer-valued numbers print without a decimal point. -/
def jsToString : JSValue → String
  | .undefined => "undefined"
  | .null => "null"
  | .str s => s
  | .num n => toString n
  | .bool b => if b then "true" else "false"
  | .object => "[object Object]"
  | .array => ""

/-- Runtime check `typeof partitionId === "string"`. -/
def isString : JSValue → Bool
  | .str _ => true
  | _ => false

/-- Runtime check `typeof partitionId === "number"`. -/
def isNumber : JSValue → Bool
  | .num _ => true
  | _ => false

/-- Loose equality `partitionId == undefined`: true exactly for
`undefined` and `null`. -/
def looseEqUndefined : JSValue → Bool
  | .undefined => true
  | .null => true
  | _ => false

/-- Errors thrown by the derive operations: `TypeError` with a message. -/
inductive JSError where
  | typeError (message : String)
deriving DecidableEq, Repr

/-- Message of the TypeError thrown by the sender operations. -/
def senderErrMsg : String :=
  "\x27partitionId\x27 must be of type \x27string\x27 or \x27number\x27."

/-- Message of the TypeError thrown by the receiver operations
(concatenation of the two template literals in the source). -/
def receiverErrMsg : String :=
  "\x27partitionId\x27 is a required parameter and must be of " ++
    "type \x27string\x27 or \x27number\x27"

/-- Embeds `config.getEventHubManagementAudience`. -/
def getEventHubManagementAudience (config : EventHubConnectionConfig) : String :=
  config.endpoint ++ config.entityPath ++ "/$management"

/-- Embeds `config.getEventHubManagementAddress`. -/
def getEventHubManagementAddress (config : EventHubConnectionConfig) : String :=
  config.entityPath ++ "/$management"

/-- Embeds `config.getEventHubSenderAudience`. A call with the argument
omitted is a call with `partitionId = undefined`. -/
def getEventHubSenderAudience (config : EventHubConnectionConfig)
    (partitionId : JSValue) : Except JSError String :=
  if !looseEqUndefined partitionId then
    if !isString partitionId && !isNumber partitionId then
      Except.error (JSError.typeError senderErrMsg)
    else
      Except.ok (config.endpoint ++ config.entityPath ++ "/Partitions/" ++
        jsToString partitionId)
  else
    Except.ok (config.endpoint ++ config.entityPath)

/-- Embeds `config.getEventHubSenderAddress`. A call with the argument
omitted is a call with `partitionId = undefined`. -/
def getEventHubSenderAddress (config : EventHubConnectionConfig)
    (partitionId : JSValue) : Except JSError String :=
  if !looseEqUndefined partitionId then
    if !isString partitionId && !isNumber partitionId then
      Except.error (JSError.typeError senderErrMsg)
    else
      Except.ok (config.entityPath ++ "/Partitions/" ++ jsToString partitionId)
  else
    Except.ok config.entityPath

/-- Defaulting of the consumer group: the source replaces a falsy
`consumergroup` (omitted, i.e. `undefined`, or the empty string) by
the literal "$default". -/
def consumerGroupValue : Option String → String
  | none => "$default"
  | some s => if s = "" then "$default" else s

/-- Embeds `config.getEventHubReceiverAudience`. -/
def getEventHubReceiverAudience (config : EventHubConnectionConfig)
    (partitionId : JSValue) (consumergroup : Option String) :
    Except JSError String :=
  if looseEqUndefined partitionId ||
      (!isString partitionId && !isNumber partitionId) then
    Except.error (JSError.typeError receiverErrMsg)
  else
    Except.ok (config.endpoint ++ config.entityPath ++ "/ConsumerGroups/" ++
      consumerGroupValue consumergroup ++ "/Partitions/" ++
      jsToString partitionId)

/-- Embeds `config.getEventHubReceiverAddress`. -/
def getEventHubReceiverAddress (config : EventHubConnectionConfig)
    (partitionId : JSValue) (consumergroup : Option String) :
    Except JSError String :=
  if looseEqUndefined partitionId ||
      (!isString partitionId && !isNumber partitionId) then
    Except.error (JSError.typeError receiverErrMsg)
  else
    Except.ok (config.entityPath ++ "/ConsumerGroups/" ++
      consumerGroupValue consumergroup ++ "/Partitions/" ++
      jsToString partitionId)

/-- Concrete config of the specification scenario: endpoint
"sb://ns.example.net/", entityPath "hub1". -/
def cfg0 : EventHubConnectionConfig :=
  { endpoint := "sb://ns.example.net/", entityPath := "hub1" }

/-- C1: for every partitionId that is a string or a number,
getEventHubSenderAddress returns entityPath ++ "/Partitions/" ++ partitionId,
and a call with no argument (partitionId undefined) returns exactly
entityPath. -/
theorem senderAddress_partition_and_default (c : EventHubConnectionConfig) :
    (∀ s : String, getEventHubSenderAddress c (JSValue.str s) =
      Except.ok (c.entityPath ++ "/Partitions/" ++ s)) ∧
    (∀ n : Int, getEventHubSenderAddress c (JSValue.num n) =
      Except.ok (c.entityPath ++ "/Partitions/" ++ toString n)) ∧
    getEventHubSenderAddress c JSValue.undefined = Except.ok c.entityPath :=
  ⟨fun _ => rfl, fun _ => rfl, rfl⟩

/-- C2: getEventHubReceiverAddress and getEventHubReceiverAudience fail
with a TypeError exactly when partitionId is neither a string nor a number
(in particular when it is absent, i.e. undefined); on a string or number
they return a string. The thrown message names the parameter and the two
accepted types. -/
theorem receiverOps_fail_iff_partitionId_invalid (c : EventHubConnectionConfig)
    (p : JSValue) (cg : Option String) :
    (if isString p || isNumber p then
        (∃ s, getEventHubReceiverAddress c p cg = Except.ok s) ∧
        (∃ s, getEventHubReceiverAudience c p cg = Except.ok s)
      else
        getEventHubReceiverAddress c p cg =
          Except.error (JSError.typeError receiverErrMsg) ∧
        getEventHubReceiverAudience c p cg =
          Except.error (JSError.typeError receiverErrMsg)) ∧
    receiverErrMsg =
      "\x27partitionId\x27 is a required parameter and must be of type \x27string\x27 or \x27number\x27" := by
  refine ⟨?_, rfl⟩
  cases p <;> simp only [isString, isNumber, Bool.or_self, Bool.or_false,
    Bool.false_or, if_true, if_false, reduceIte] <;>
    first
      | exact ⟨rfl, rfl⟩
      | exact ⟨⟨_, rfl⟩, ⟨_, rfl⟩⟩

/-- C3: whenever the corresponding address operation succeeds, each
audience operation returns endpoint concatenated with that address; the
management audience always equals endpoint concatenated with the
management address. -/
theorem audience_eq_endpoint_append_address (c : EventHubConnectionConfig)
    (p : JSValue) (cg : Option String) :
    (∀ s, getEventHubSenderAddress c p = Except.ok s →
      getEventHubSenderAudience c p = Except.ok (c.endpoint ++ s)) ∧
    (∀ s, getEventHubReceiverAddress c p cg = Except.ok s →
      getEventHubReceiverAudience c p cg = Except.ok (c.endpoint ++ s)) ∧
    getEventHubManagementAudience c =
      c.endpoint ++ getEventHubManagementAddress c := by
  refine ⟨?_, ?_, ?_⟩
  · intro s hs
    cases p <;>
      simp_all [getEventHubSenderAddress, getEventHubSenderAudience,
        looseEqUndefined, isString, isNumber, String.append_assoc]
  · intro s hs
    cases p <;>
      simp_all [getEventHubReceiverAddress, getEventHubReceiverAudience,
        looseEqUndefined, isString, isNumber, String.append_assoc]
  · simp [getEventHubManagementAudience, getEventHubManagementAddress,
      String.append_assoc]

/-- C3 witness: the sender and receiver audience of the concrete scenario
config equal endpoint ++ the respective address. -/
theorem audience_eq_endpoint_append_address_witness :
    getEventHubSenderAudience cfg0 (JSValue.num 2) =
      Except.ok ("sb://ns.example.net/" ++ "hub1/Partitions/2") ∧
    getEventHubReceiverAudience cfg0 (JSValue.num 2) (some "cg1") =
      Except.ok ("sb://ns.example.net/" ++
        "hub1/ConsumerGroups/cg1/Partitions/2") :=
  ⟨(audience_eq_endpoint_append_address cfg0 (JSValue.num 2) none).1
      "hub1/Partitions/2" rfl,
    (audience_eq_endpoint_append_address cfg0 (JSValue.num 2)
        (some "cg1")).2.1 "hub1/ConsumerGroups/cg1/Partitions/2" rfl⟩

/-- C4: for every string or number partitionId and non-empty consumer
group cg, getEventHubReceiverAddress returns
entityPath ++ "/ConsumerGroups/" ++ cg ++ "/Partitions/" ++ partitionId;
with the consumer group omitted it returns
entityPath ++ "/ConsumerGroups/$default/Partitions/" ++ partitionId.
The concrete scenario (endpoint "sb://ns.example.net/", entityPath
"hub1", partitionId 2) yields the two literal strings of the spec. -/
theorem receiverAddress_formula_and_concrete (c : EventHubConnectionConfig) :
    (∀ (s cg : String), cg ≠ "" →
      getEventHubReceiverAddress c (JSValue.str s) (some cg) =
        Except.ok (c.entityPath ++ "/ConsumerGroups/" ++ cg ++
          "/Partitions/" ++ s)) ∧
    (∀ (n : Int) (cg : String), cg ≠ "" →
      getEventHubReceiverAddress c (JSValue.num n) (some cg) =
        Except.ok (c.entityPath ++ "/ConsumerGroups/" ++ cg ++
          "/Partitions/" ++ toString n)) ∧
    (∀ s : String, getEventHubReceiverAddress c (JSValue.str s) none =
      Except.ok (c.entityPath ++ "/ConsumerGroups/$default/Partitions/" ++ s)) ∧
    (∀ n : Int, getEventHubReceiverAddress c (JSValue.num n) none =
      Except.ok (c.entityPath ++ "/ConsumerGroups/$default/Partitions/" ++
        toString n)) ∧
    getEventHubSenderAddress cfg0 (JSValue.num 2) =
      Except.ok "hub1/Partitions/2" ∧
    getEventHubReceiverAudience cfg0 (JSValue.num 2) (some "cg1") =
      Except.ok "sb://ns.example.net/hub1/ConsumerGroups/cg1/Partitions/2" := by
  refine ⟨?_, ?_, ?_, ?_, rfl, rfl⟩
  · intro s cg h
    simp [getEventHubReceiverAddress, consumerGroupValue, h, jsToString,
      looseEqUndefined, isString, isNumber]
  · intro n cg h
    simp [getEventHubReceiverAddress, consumerGroupValue, h, jsToString,
      looseEqUndefined, isString, isNumber]
  · intro s
    show Except.ok (c.entityPath ++ "/ConsumerGroups/" ++ "$default" ++
      "/Partitions/" ++ s) = _
    simp only [String.append_assoc]
    rfl
  · intro n
    show Except.ok (c.entityPath ++ "/ConsumerGroups/" ++ "$default" ++
      "/Partitions/" ++ toString n) = _
    simp only [String.append_assoc]
    rfl

/-- C4 witness: the non-empty consumer group clause instantiated at the
concrete scenario config with partitionId "0" and consumer group "cg1". -/
theorem receiverAddress_formula_and_concrete_witness :
    getEventHubReceiverAddress cfg0 (JSValue.str "0") (some "cg1") =
      Except.ok ("hub1" ++ "/ConsumerGroups/" ++ "cg1" ++
        "/Partitions/" ++ "0") :=
  (receiverAddress_formula_and_concrete cfg0).1 "0" "cg1" (by decide)

/-- C5 counterexample: null is a provided value that is neither a string
nor a number, yet getEventHubSenderAddress does not fail on it: the loose
presence check treats null as absence, so the call succeeds and returns
the bare entityPath. -/
theorem senderAddress_null_succeeds_counterexample :
    getEventHubSenderAddress cfg0 JSValue.null = Except.ok "hub1" ∧
    isString JSValue.null = false ∧ isNumber JSValue.null = false :=
  ⟨rfl, rfl, rfl⟩

/-- C5 amended: for every provided partitionId other than null that is
neither a string nor a number — in particular any boolean, object, or
array — all four sender and receiver operations fail with a TypeError,
regardless of the other arguments; null itself is rejected only by the
receiver operations. -/
theorem nonNull_invalid_partitionId_rejected (c : EventHubConnectionConfig)
    (p : JSValue) (cg : Option String)
    (hu : p ≠ JSValue.undefined) (hn : p ≠ JSValue.null)
    (hs : isString p = false) (hm : isNumber p = false) :
    getEventHubSenderAddress c p =
      Except.error (JSError.typeError senderErrMsg) ∧
    getEventHubSenderAudience c p =
      Except.error (JSError.typeError senderErrMsg) ∧
    getEventHubReceiverAddress c p cg =
      Except.error (JSError.typeError receiverErrMsg) ∧
    getEventHubReceiverAudience c p cg =
      Except.error (JSError.typeError receiverErrMsg) := by
  cases p <;> simp_all [getEventHubSenderAddress, getEventHubSenderAudience,
    getEventHubReceiverAddress, getEventHubReceiverAudience,
    looseEqUndefined, isString, isNumber]

/-- C5 witness: a boolean partitionId is rejected by all four operations. -/
theorem nonNull_invalid_partitionId_rejected_witness :
    getEventHubSenderAddress cfg0 (JSValue.bool true) =
      Except.error (JSError.typeError senderErrMsg) ∧
    getEventHubReceiverAddress cfg0 (JSValue.bool true) none =
      Except.error (JSError.typeError receiverErrMsg) :=
  ⟨(nonNull_invalid_partitionId_rejected cfg0 (JSValue.bool true) none
      (by decide) (by decide) rfl rfl).1,
    (nonNull_invalid_partitionId_rejected cfg0 (JSValue.bool true) none
      (by decide) (by decide) rfl rfl).2.2.1⟩

/-- C6: an empty (falsy) consumer group is replaced by "$default", so
passing "" gives exactly the same results as omitting the argument, for
both receiver operations and every partitionId. -/
theorem receiver_empty_consumerGroup_eq_omitted
    (c : EventHubConnectionConfig) (p : JSValue) :
    getEventHubReceiverAddress c p (some "") =
      getEventHubReceiverAddress c p none ∧
    getEventHubReceiverAudience c p (some "") =
      getEventHubReceiverAudience c p none :=
  ⟨rfl, rfl⟩

/-- C7: getEventHubManagementAddress always returns
entityPath ++ "/$management" and getEventHubManagementAudience always
returns endpoint ++ entityPath ++ "/$management"; both are total
functions of the config alone and never fail. -/
theorem management_address_and_audience (c : EventHubConnectionConfig) :
    getEventHubManagementAddress c = c.entityPath ++ "/$management" ∧
    getEventHubManagementAudience c =
      c.endpoint ++ c.entityPath ++ "/$management" :=
  ⟨rfl, rfl⟩

/-- C8: every derive operation is a pure function of the endpoint and
entityPath fields and its arguments: two configs agreeing on those fields
give equal results on every argument list, and no operation produces a
modified config (each returns only a string or an error). -/
theorem ops_depend_only_on_endpoint_and_entityPath
    (c₁ c₂ : EventHubConnectionConfig)
    (he : c₁.endpoint = c₂.endpoint) (hp : c₁.entityPath = c₂.entityPath) :
    getEventHubManagementAddress c₁ = getEventHubManagementAddress c₂ ∧
    getEventHubManagementAudience c₁ = getEventHubManagementAudience c₂ ∧
    (∀ p, getEventHubSenderAddress c₁ p = getEventHubSenderAddress c₂ p) ∧
    (∀ p, getEventHubSenderAudience c₁ p = getEventHubSenderAudience c₂ p) ∧
    (∀ p cg, getEventHubReceiverAddress c₁ p cg =
      getEventHubReceiverAddress c₂ p cg) ∧
    (∀ p cg, getEventHubReceiverAudience c₁ p cg =
      getEventHubReceiverAudience c₂ p cg) := by
  obtain ⟨e₁, q₁⟩ := c₁
  obtain ⟨e₂, q₂⟩ := c₂
  cases he
  cases hp
  exact ⟨rfl, rfl, fun _ => rfl, fun _ => rfl, fun _ _ => rfl,
    fun _ _ => rfl⟩

/-- C8 witness: two structurally equal configs give the same sender
address at partition 1. -/
theorem ops_depend_only_on_endpoint_and_entityPath_witness :
    getEventHubSenderAddress cfg0 (JSValue.num 1) =
      getEventHubSenderAddress
        { endpoint := "sb://ns.example.net/", entityPath := "hub1" }
        (JSValue.num 1) :=
  (ops_depend_only_on_endpoint_and_entityPath cfg0
    { endpoint := "sb://ns.example.net/", entityPath := "hub1" }
    rfl rfl).2.2.1 (JSValue.num 1)

/-- C9: null as partitionId is treated asymmetrically: the sender
operations treat it as absence (the loose check against undefined) and
succeed with the no-partition result, while the receiver operations
reject it with the required-parameter TypeError. -/
theorem null_partitionId_asymmetry (c : EventHubConnectionConfig)
    (cg : Option String) :
    getEventHubSenderAddress c JSValue.null = Except.ok c.entityPath ∧
    getEventHubSenderAudience c JSValue.null =
      Except.ok (c.endpoint ++ c.entityPath) ∧
    getEventHubReceiverAddress c JSValue.null cg =
      Except.error (JSError.typeError receiverErrMsg) ∧
    getEventHubReceiverAudience c JSValue.null cg =
      Except.error (JSError.typeError receiverErrMsg) :=
  ⟨rfl, rfl, rfl, rfl⟩

/-- C10: the empty string and the number 0 pass the presence and type
checks of all four sender and receiver operations; in particular the
sender address of "" is entityPath ++ "/Partitions/" and the receiver
address of 0 is entityPath ++ "/ConsumerGroups/$default/Partitions/0". -/
theorem empty_string_and_zero_partitionId_accepted
    (c : EventHubConnectionConfig) :
    getEventHubSenderAddress c (JSValue.str "") =
      Except.ok (c.entityPath ++ "/Partitions/") ∧
    getEventHubReceiverAddress c (JSValue.num 0) none =
      Except.ok (c.entityPath ++ "/ConsumerGroups/$default/Partitions/0") ∧
    (∃ s, getEventHubSenderAudience c (JSValue.str "") = Except.ok s) ∧
    (∃ s, getEventHubReceiverAudience c (JSValue.str "") none =
      Except.ok s) ∧
    (∃ s, getEventHubSenderAddress c (JSValue.num 0) = Except.ok s) ∧
    (∃ s, getEventHubSenderAudience c (JSValue.num 0) = Except.ok s) ∧
    (∃ s, getEventHubReceiverAddress c (JSValue.str "") none =
      Except.ok s) ∧
    (∃ s, getEventHubReceiverAudience c (JSValue.num 0) none =
      Except.ok s) := by
  refine ⟨?_, ?_, ⟨_, rfl⟩, ⟨_, rfl⟩, ⟨_, rfl⟩, ⟨_, rfl⟩, ⟨_, rfl⟩,
    ⟨_, rfl⟩⟩
  · show Except.ok (c.entityPath ++ "/Partitions/" ++ "") = _
    rw [String.append_empty]
  · show Except.ok (c.entityPath ++ "/ConsumerGroups/" ++ "$default" ++
      "/Partitions/" ++ "0") = _
    simp only [String.append_assoc]
    rfl
